import Mathlib

/-!
Verification of the KettlebellThunderBackend core (src/app.py) against its
specification.  The Flask app is shallowly embedded: SQLAlchemy rows become
Lean structures, the database becomes an explicit list threaded through the
handlers, Python floats become exact rationals, Python exceptions become an
explicit `Except` with an error tag per exception class, and calendar dates
become their numeric encoding year * 10000 + month * 100 + day (which is
ordered exactly like the ISO-8601 strings `date.isoformat()` produces, since
isoformat zero-pads to four-digit years and two-digit months and days).
-/

/-- Python exception classes the handlers in src/app.py can observe. -/
inductive PyErr where
  | typeError
  | valueError
  | integrityError
deriving DecidableEq

/-! ### Password hashes (Credential Manager)

The bcrypt verification routine itself lives in the external flask_bcrypt /
bcrypt packages, outside src/app.py; only its caller `User.check_password`
(src/app.py lines 48-49) is in the source.  Hashes are therefore opaque
values: a well-formed bcrypt hash is abstracted as the password it was
derived from, and malformed stored values get their own constructor. -/

/-- An opaque stored password hash: either a well-formed bcrypt hash of some
password, or a malformed value that is not a valid hash of the scheme. -/
inductive StoredHash where
  | bcrypt (password : String)
  | malformed (raw : String)
deriving DecidableEq

/-- Modelled from the spec: the bcrypt verification routine
(flask_bcrypt.check_password_hash), absent from src/ - section 4.1:
"constant-time-safe comparison via the algorithm's own verification routine.
Fails (returns false) on any mismatch; never raises on malformed hash -
treated as non-match."  The `Except` result type records that a Python call
can in principle raise; per the spec this routine never does. -/
def check_password_hash (pw_hash : StoredHash) (password : String) : Except PyErr Bool :=
  match pw_hash with
  | .bcrypt p => .ok (p == password)
  | .malformed _ => .ok false

/-- flask_bcrypt.generate_password_hash, as used by User.set_password. -/
def generate_password_hash (password : String) : StoredHash :=
  .bcrypt password

/-! ### Models (src/app.py lines 38-90) -/

/-- The User model (src/app.py lines 38-53).  `id` is the integer primary
key the store assigns at commit. -/
structure User where
  id : Nat
  username : String
  email : String
  password_hash : StoredHash
deriving DecidableEq

/-- User.check_password (src/app.py lines 48-49): a direct delegation to
flask_bcrypt.check_password_hash. -/
def User.check_password (u : User) (password : String) : Except PyErr Bool :=
  check_password_hash u.password_hash password

/-- The SnatchWorkout model (src/app.py lines 56-74).  `id` and `user_id`
are `Option` because a freshly constructed object has neither until the
session assigns them (the constructor sets only the five payload fields). -/
structure SnatchWorkout where
  id : Option Nat
  workout_date : Nat
  duration_minutes : Int
  kettlebell_weight_kg : ℚ
  total_snatches : Int
  total_weight_moved_kg : ℚ
  user_id : Option Nat
  reps_per_interval : Int
deriving DecidableEq

/-- SnatchWorkout.__init__ (src/app.py lines 67-74): stores the five
arguments and computes total_weight_moved_kg once, from the constructor
inputs.  `id` and `user_id` are not set by the constructor. -/
def SnatchWorkout.init (reps_per_interval : Int) (workout_date : Nat)
    (duration_minutes : Int) (kettlebell_weight_kg : ℚ) (total_snatches : Int) :
    SnatchWorkout :=
  { id := none
    workout_date := workout_date
    duration_minutes := duration_minutes
    kettlebell_weight_kg := kettlebell_weight_kg
    total_snatches := total_snatches
    total_weight_moved_kg := kettlebell_weight_kg * (total_snatches : ℚ)
    user_id := none
    reps_per_interval := reps_per_interval }

/-- A Python keyword call of the SnatchWorkout constructor.  A parameter
without a default that the call site does not supply makes the call raise
TypeError before the constructor body runs; `reps_per_interval` is the
parameter the POST handler omits, so it is the `Option` here. -/
def SnatchWorkout.callCtor (reps_per_interval : Option Int) (workout_date : Nat)
    (duration_minutes : Int) (kettlebell_weight_kg : ℚ) (total_snatches : Int) :
    Except PyErr SnatchWorkout :=
  match reps_per_interval with
  | some r => .ok (SnatchWorkout.init r workout_date duration_minutes
      kettlebell_weight_kg total_snatches)
  | none => .error .typeError

/-- The dictionary SnatchWorkout.to_dict builds (src/app.py lines 79-90),
plus the percentage key the listing route adds afterwards (line 162).
`workout_date` keeps the numeric encoding; its order agrees with the
ISO-8601 string the source stores under this key. -/
structure WorkoutDict where
  id : Option Nat
  workout_date : Nat
  duration_minutes : Int
  kettlebell_weight_kg : ℚ
  total_snatches : Int
  total_weight_moved_kg : ℚ
  reps_per_interval : Int
  user_id : Option Nat
  percentage_change_from_previous_same_weight : Option ℚ
deriving DecidableEq

/-- SnatchWorkout.to_dict (src/app.py lines 79-90).  The percentage key is
not part of to_dict; the listing route adds it, modelled as a record update
of this field, which to_dict leaves at `none`. -/
def SnatchWorkout.to_dict (w : SnatchWorkout) : WorkoutDict :=
  { id := w.id
    workout_date := w.workout_date
    duration_minutes := w.duration_minutes
    kettlebell_weight_kg := w.kettlebell_weight_kg
    total_snatches := w.total_snatches
    total_weight_moved_kg := w.total_weight_moved_kg
    reps_per_interval := w.reps_per_interval
    user_id := w.user_id
    percentage_change_from_previous_same_weight := none }

/-! ### Dates: datetime.strptime(s, "%Y-%m-%d").date() -/

/-- Split a character list at every '-' (the separators of the
"%Y-%m-%d" format). -/
def splitDash : List Char → List (List Char)
  | [] => [[]]
  | c :: cs =>
    if c = '-' then [] :: splitDash cs
    else
      match splitDash cs with
      | [] => [[c]]
      | g :: gs => (c :: g) :: gs

/-- Numeric value of a digit string. -/
def digitsVal (l : List Char) : Nat :=
  l.foldl (fun n c => 10 * n + (c.toNat - 48)) 0

/-- Gregorian leap-year rule, as datetime uses for day-of-month bounds. -/
def isLeapYear (y : Nat) : Bool :=
  (y % 4 == 0 && y % 100 != 0) || y % 400 == 0

/-- Days in a month, as datetime validates them. -/
def daysInMonth (y m : Nat) : Nat :=
  if m = 2 then (if isLeapYear y then 29 else 28)
  else if m = 4 ∨ m = 6 ∨ m = 9 ∨ m = 11 then 30
  else 31

/-- datetime.strptime(s, "%Y-%m-%d").date() (src/app.py line 118): %Y takes
exactly four digits, %m and %d one or two, month in 1..12, day within the
month, year at least 1; any failure raises ValueError, modelled as `none`.
The result is the numeric date encoding. -/
def strptime_Ymd (s : String) : Option Nat :=
  match splitDash s.data with
  | [ys, ms, ds] =>
    if ys.length = 4 ∧ ys.all Char.isDigit
        ∧ 1 ≤ ms.length ∧ ms.length ≤ 2 ∧ ms.all Char.isDigit
        ∧ 1 ≤ ds.length ∧ ds.length ≤ 2 ∧ ds.all Char.isDigit then
      let y := digitsVal ys
      let m := digitsVal ms
      let d := digitsVal ds
      if 1 ≤ y ∧ 1 ≤ m ∧ m ≤ 12 ∧ 1 ≤ d ∧ d ≤ daysInMonth y m then
        some (y * 10000 + m * 100 + d)
      else none
    else none
  | _ => none

/-! ### Python round -/

/-- Round to the nearest integer, ties to even - the rounding Python 3's
built-in round performs. -/
def roundHalfEven (q : ℚ) : ℤ :=
  let f : ℤ := ⌊q⌋
  let r : ℚ := q - (f : ℚ)
  if r < 1 / 2 then f
  else if 1 / 2 < r then f + 1
  else if f % 2 = 0 then f else f + 1

/-- round(x, 2) (src/app.py line 160): round to two decimal places, ties to
even. -/
def pyRound2 (q : ℚ) : ℚ :=
  ((roundHalfEven (q * 100) : ℤ) : ℚ) / 100

/-! ### Session tokens

Issuance is embedded from the login route (src/app.py lines 246-256).  No
route in src/app.py ever decodes a token, so verification is modelled from
the spec below. -/

/-- app.config["SECRET_KEY"] (src/app.py lines 19-20): with no ambient
configuration the development default is installed. -/
def SECRET_KEY : String :=
  "your_super_secret_and_random_key_for_development"

/-- app.config["JWT_EXPIRATION_DELTA"] = timedelta(hours=1)
(src/app.py line 23), in seconds. -/
def JWT_EXPIRATION_DELTA : Int := 3600

/-- The JWT payload the login route builds (src/app.py lines 247-251).
Times are Unix seconds. -/
structure TokenPayload where
  exp : Int
  iat : Int
  sub : Nat
deriving DecidableEq

/-- A token as the verifier sees it: an HS256-signed payload (the signature
abstracted as the key it was produced with), or an unparseable blob. -/
inductive Token where
  | signed (payload : TokenPayload) (key : String)
  | malformed (raw : String)
deriving DecidableEq

/-- jwt.encode of the login payload (src/app.py lines 247-256):
exp = now + JWT_EXPIRATION_DELTA, iat = now, sub = the user id, signed with
the process-wide SECRET_KEY. -/
def issueToken (user_id : Nat) (now : Int) : Token :=
  .signed { exp := now + JWT_EXPIRATION_DELTA, iat := now, sub := user_id }
    SECRET_KEY

/-- Token verification failures (spec section 4.2). -/
inductive TokenError where
  | ExpiredToken
  | InvalidSignature
  | Malformed
deriving DecidableEq

/-- Modelled from the spec: token verification, absent from src/ (no route
decodes a token) - section 4.2: "verify(token, now) -> user_id | error:
fails with ExpiredToken when now > expires_at; fails with InvalidSignature
when the signature does not match; fails with Malformed when the token
cannot be parsed.  On success returns the embedded user id." -/
def verifyToken (t : Token) (now : Int) : Except TokenError Nat :=
  match t with
  | .malformed _ => .error .Malformed
  | .signed p key =>
    if key ≠ SECRET_KEY then .error .InvalidSignature
    else if p.exp < now then .error .ExpiredToken
    else .ok p.sub

/-! ### API responses

One inductive covers the jsonify payload shapes the routes return; the
status code is part of the value. -/

/-- A response one of the routes produces. -/
inductive ApiResponse where
  | err (status : Nat) (error : String)
  | workoutCreated (d : WorkoutDict)
  | workoutList (l : List WorkoutDict)
  | registered (id : Nat) (username : String) (email : String)
  | loginOk (access_token : Token)
deriving DecidableEq

/-- HTTP status of a response. -/
def ApiResponse.status : ApiResponse → Nat
  | .err s _ => s
  | .workoutCreated _ => 201
  | .workoutList _ => 200
  | .registered _ _ _ => 201
  | .loginOk _ => 200

/-- The access token a response carries, if any. -/
def ApiResponse.accessToken : ApiResponse → Option Token
  | .loginOk t => some t
  | _ => none

/-! ### POST /api/snatch_workouts (src/app.py lines 103-134) -/

/-- The JSON body of a workout-creation request; `none` is an absent key.
The handler reads only the four keys it lists as required -
`reps_per_interval` is carried here to record that the handler ignores it
even when the client supplies it. -/
structure WorkoutPostBody where
  workout_date_str : Option String
  duration_minutes : Option Int
  kettlebell_weight_kg : Option ℚ
  total_snatches : Option Int
  reps_per_interval : Option Int
deriving DecidableEq

/-- db.session.add + db.session.commit for a new workout: the NOT NULL
user_id column (never set by the POST handler) raises at commit; otherwise
the row is appended with the next primary key.  Returns the committed row
and the new table. -/
def db_commit (workouts : List SnatchWorkout) (w : SnatchWorkout) :
    Except PyErr (SnatchWorkout × List SnatchWorkout) :=
  match w.user_id with
  | none => .error .integrityError
  | some _ =>
    let committed := { w with id := some (workouts.length + 1) }
    .ok (committed, workouts ++ [committed])

/-- The try-block of add_snatch_workout (src/app.py lines 116-128): parse
the date (ValueError on failure), call the SnatchWorkout constructor
exactly as the source does - without the reps_per_interval argument - then
add and commit.  Any raise propagates to the except-clauses. -/
def tryAddBody (workouts : List SnatchWorkout) (ds : String) (dur : Int)
    (kb : ℚ) (sn : Int) : Except PyErr (ApiResponse × List SnatchWorkout) :=
  match strptime_Ymd ds with
  | none => .error .valueError
  | some workout_date_obj =>
    match SnatchWorkout.callCtor none workout_date_obj dur kb sn with
    | .error e => .error e
    | .ok new_workout =>
      match db_commit workouts new_workout with
      | .error e => .error e
      | .ok (committed, ws2) => .ok (.workoutCreated committed.to_dict, ws2)

/-- add_snatch_workout (src/app.py lines 103-134).  Missing body or missing
required field gives 400; a ValueError in the try-block gives 400 after
rollback; any other exception gives 500 after rollback.  (The source
interpolates exception text into the messages; the messages here keep the
fixed prefix.)  Returns the response and the workout table afterwards. -/
def add_snatch_workout (workouts : List SnatchWorkout)
    (data : Option WorkoutPostBody) : ApiResponse × List SnatchWorkout :=
  match data with
  | none => (.err 400 ("No input data provided"), workouts)
  | some d =>
    match d.workout_date_str, d.duration_minutes,
        d.kettlebell_weight_kg, d.total_snatches with
    | some ds, some dur, some kb, some sn =>
      match tryAddBody workouts ds dur kb sn with
      | .ok r => r
      | .error .valueError => (.err 400 ("Invalid data format"), workouts)
      | .error _ => (.err 500 ("An unexpected error occurred"), workouts)
    | _, _, _, _ => (.err 400 ("Missing field"), workouts)

/-! ### GET /api/snatch_workouts (src/app.py lines 137-176) -/

/-- Lookup in the last_total_weight_moved_by_kb dictionary (float keys are
compared by exact equality, as Python dicts do). -/
def lookupKB : List (ℚ × ℚ) → ℚ → Option ℚ
  | [], _ => none
  | (k, v) :: rest, k0 => if k = k0 then some v else lookupKB rest k0

/-- Assignment last_total_weight_moved_by_kb[k] = v: replace the entry in
place, or append a new one, as a Python dict does. -/
def updateKB : List (ℚ × ℚ) → ℚ → ℚ → List (ℚ × ℚ)
  | [], k0, v0 => [(k0, v0)]
  | (k, v) :: rest, k0, v0 =>
    if k = k0 then (k, v0) :: rest else (k, v) :: updateKB rest k0 v0

/-- The percentage computation for one workout (src/app.py lines 150-160):
None when the weight has no dictionary entry yet or the previous value is
not positive, otherwise round(((m - p) / p) * 100, 2).  (The source also
tests the previous value against None, which no stored value ever is.) -/
def pctCode (m : List (ℚ × ℚ)) (w : SnatchWorkout) : Option ℚ :=
  match lookupKB m w.kettlebell_weight_kg with
  | none => none
  | some p =>
    if 0 < p then
      some (pyRound2 ((w.total_weight_moved_kg - p) / p * 100))
    else none

/-- The forward pass of get_all_snatch_workouts (src/app.py lines 148-167):
for each workout in order, attach the percentage field to its dictionary,
then unconditionally update the weight map with its total_weight_moved. -/
def processWorkouts (m : List (ℚ × ℚ)) : List SnatchWorkout → List WorkoutDict
  | [] => []
  | w :: rest =>
    { w.to_dict with
        percentage_change_from_previous_same_weight := pctCode m w }
      :: processWorkouts
          (updateKB m w.kettlebell_weight_kg w.total_weight_moved_kg) rest

/-- Ascending-by-date order for the query on src/app.py line 141. -/
def dateAsc (a b : SnatchWorkout) : Prop :=
  a.workout_date ≤ b.workout_date

instance : DecidableRel dateAsc := fun a b =>
  Nat.decLe a.workout_date b.workout_date

instance : IsTotal SnatchWorkout dateAsc :=
  ⟨fun a b => Nat.le_total a.workout_date b.workout_date⟩

instance : IsTrans SnatchWorkout dateAsc :=
  ⟨fun _ _ _ h1 h2 => le_trans h1 h2⟩

/-- SnatchWorkout.query.order_by(workout_date.asc()).all() (src/app.py line
141): the rows in ascending date order, ties keeping table (insertion)
order. -/
def ascQuery (workouts : List SnatchWorkout) : List SnatchWorkout :=
  List.insertionSort dateAsc workouts

/-- Descending-by-date order for the final re-sort on src/app.py line 170
(the sort key there is the ISO date string, whose order is the date
order). -/
def dateDesc (a b : WorkoutDict) : Prop :=
  b.workout_date ≤ a.workout_date

instance : DecidableRel dateDesc := fun a b =>
  Nat.decLe b.workout_date a.workout_date

instance : IsTotal WorkoutDict dateDesc :=
  ⟨fun a b => Or.symm (Nat.le_total a.workout_date b.workout_date)⟩

instance : IsTrans WorkoutDict dateDesc :=
  ⟨fun _ _ _ h1 h2 => le_trans h2 h1⟩

/-- processed_workouts.sort(key=..., reverse=True) (src/app.py line 170):
Python list.sort is stable also with reverse=True - records with equal keys
retain their original order. -/
def descSortDicts (l : List WorkoutDict) : List WorkoutDict :=
  List.insertionSort dateDesc l

/-- get_all_snatch_workouts (src/app.py lines 137-176): ascending query,
forward pass starting from an empty weight map, then the cosmetic
descending re-sort. -/
def get_all_snatch_workouts (workouts : List SnatchWorkout) : ApiResponse :=
  .workoutList (descSortDicts (processWorkouts [] (ascQuery workouts)))

/-- The field the specification describes, in its own words (spec section
4.4 step 2): p is the total weight moved of the most recent prior record at
exactly the same kettlebell weight; no such record gives null, p at most
zero gives null, otherwise round(((m - p) / p) * 100, 2). -/
def lastPrevMoved (k : ℚ) : List SnatchWorkout → Option ℚ
  | [] => none
  | w :: t =>
    match lastPrevMoved k t with
    | some v => some v
    | none =>
      if w.kettlebell_weight_kg = k then some w.total_weight_moved_kg
      else none

/-- The claimed percentage field for a record with the given prior records,
stated from the specification text. -/
def specPercentage (prior : List SnatchWorkout) (w : SnatchWorkout) : Option ℚ :=
  match lastPrevMoved w.kettlebell_weight_kg prior with
  | none => none
  | some p =>
    if p ≤ 0 then none
    else some (pyRound2 ((w.total_weight_moved_kg - p) / p * 100))

/-- The weight map after the pass has consumed the given records
(src/app.py line 165 folded over a list). -/
def lastMapAfter (m : List (ℚ × ℚ)) (l : List SnatchWorkout) : List (ℚ × ℚ) :=
  l.foldl (fun m w => updateKB m w.kettlebell_weight_kg w.total_weight_moved_kg) m

/-! ### POST /api/auth/register (src/app.py lines 180-221) -/

/-- The JSON body of a registration request; `none` is an absent key. -/
structure RegisterBody where
  username : Option String
  email : Option String
  password : Option String
deriving DecidableEq

/-- register_user (src/app.py lines 180-221).  The source guard
"if not username or not email or not password" treats an absent key and an
empty string alike (Python falsiness), then checks username uniqueness,
then email uniqueness, each a 409; otherwise the user is created with the
hashed password and the next primary key.  Returns the response and the
user table afterwards. -/
def register_user (users : List User) (data : Option RegisterBody) :
    ApiResponse × List User :=
  match data with
  | none => (.err 400 ("No input data provided"), users)
  | some d =>
    match d.username, d.email, d.password with
    | some un, some em, some pw =>
      if un = "" ∨ em = "" ∨ pw = "" then
        (.err 400 ("Missing username, email, or password"), users)
      else if users.any (fun u => decide (u.username = un)) then
        (.err 409 ("Username already exists"), users)
      else if users.any (fun u => decide (u.email = em)) then
        (.err 409 ("Email address already registered"), users)
      else
        let new_user : User :=
          { id := users.length + 1
            username := un
            email := em
            password_hash := generate_password_hash pw }
        (.registered new_user.id un em, users ++ [new_user])
    | _, _, _ => (.err 400 ("Missing username, email, or password"), users)

/-! ### POST /api/auth/login (src/app.py lines 225-263) -/

/-- The JSON body of a login request; `none` is an absent key. -/
structure LoginBody where
  identifier : Option String
  password : Option String
deriving DecidableEq

/-- The user lookup of the login route (src/app.py lines 240-242): by email
first, else by username. -/
def find_user_for_login (users : List User) (identifier : String) : Option User :=
  match users.find? (fun u => decide (u.email = identifier)) with
  | some u => some u
  | none => users.find? (fun u => decide (u.username = identifier))

/-- login_user (src/app.py lines 225-263).  Absent body or falsy identifier
or password give 400; then "if user and user.check_password(password)"
issues a token, and both a missing user and a failed password check fall
into the same else-branch, the one 401 response.  A check_password call
that raised would leave the route uncaught (Flask's generic 500); the
modelled routine never does. -/
def login_user (users : List User) (data : Option LoginBody) (now : Int) :
    ApiResponse :=
  match data with
  | none => .err 400 ("No input data provided")
  | some d =>
    match d.identifier, d.password with
    | some idf, some pw =>
      if idf = "" ∨ pw = "" then
        .err 400 ("Missing identifier (username/email) or password")
      else
        match find_user_for_login users idf with
        | some user =>
          match user.check_password pw with
          | .ok true => .loginOk (issueToken user.id now)
          | .ok false => .err 401 ("Invalid username/email or password")
          | .error _ => .err 500 ("Internal Server Error")
        | none => .err 401 ("Invalid username/email or password")
    | _, _ => .err 400 ("Missing identifier (username/email) or password")

/-! ### The application as a transition system

Each request touches at most one table; the state collects both tables so
that invariants over every reachable state can be stated. -/

/-- The mutable store: the two SQLAlchemy tables. -/
structure AppState where
  users : List User
  workouts : List SnatchWorkout

/-- One incoming HTTP request to a route of src/app.py. -/
inductive Request where
  | addWorkout (body : Option WorkoutPostBody)
  | listWorkouts
  | register (body : Option RegisterBody)
  | login (body : Option LoginBody) (now : Int)

/-- The state after handling one request. -/
def step (s : AppState) : Request → AppState
  | .addWorkout b => { s with workouts := (add_snatch_workout s.workouts b).2 }
  | .listWorkouts => s
  | .register b => { s with users := (register_user s.users b).2 }
  | .login _ _ => s

/-- The state after handling a sequence of requests. -/
def run (s : AppState) (reqs : List Request) : AppState :=
  reqs.foldl step s

/-- A workout row that came out of the SnatchWorkout constructor, with
whatever primary key and owner the session assigned afterwards. -/
def SnatchWorkout.fromCtor (w : SnatchWorkout) : Prop :=
  ∃ r dt dur kb sn i u,
    w = { SnatchWorkout.init r dt dur kb sn with id := i, user_id := u }

/-! ### Concrete data used by the witnesses and counterexamples -/

/-- A stored workout row: 2024-03-01, 16 kg, 20 snatches, 320 kg moved. -/
def w16a : SnatchWorkout :=
  { id := some 1
    workout_date := 20240301
    duration_minutes := 30
    kettlebell_weight_kg := 16
    total_snatches := 20
    total_weight_moved_kg := 320
    user_id := some 1
    reps_per_interval := 10 }

/-- A second stored row on the same date and weight: 25 snatches, 400 kg
moved. -/
def w16b : SnatchWorkout :=
  { id := some 2
    workout_date := 20240301
    duration_minutes := 25
    kettlebell_weight_kg := 16
    total_snatches := 25
    total_weight_moved_kg := 400
    user_id := some 1
    reps_per_interval := 10 }

/-- A creation request whose duration is negative but whose other content
is well-formed. -/
def negDurationBody : WorkoutPostBody :=
  { workout_date_str := some ("2024-01-01")
    duration_minutes := some (-5)
    kettlebell_weight_kg := some 16
    total_snatches := some 100
    reps_per_interval := some 10 }

/-- A creation request with every checked field present, a parseable date
and positive numbers. -/
def goodBody : WorkoutPostBody :=
  { workout_date_str := some ("2024-01-01")
    duration_minutes := some 30
    kettlebell_weight_kg := some 16
    total_snatches := some 100
    reps_per_interval := some 10 }

/-- A creation request whose date string has no thirteenth month. -/
def badDateBody : WorkoutPostBody :=
  { workout_date_str := some ("2024-13-01")
    duration_minutes := some 30
    kettlebell_weight_kg := some 16
    total_snatches := some 100
    reps_per_interval := some 10 }

/-- A stored user for the authentication witnesses. -/
def aliceUser : User :=
  { id := 1
    username := "alice"
    email := "alice@example.com"
    password_hash := .bcrypt ("hunter2") }

/-! ## Theorems

### Dictionary lemmas for the analytics pass -/

theorem lookupKB_updateKB_self (m : List (ℚ × ℚ)) (k v : ℚ) :
    lookupKB (updateKB m k v) k = some v := by
  induction m with
  | nil => simp [updateKB, lookupKB]
  | cons p rest ih =>
    obtain ⟨k1, v1⟩ := p
    by_cases h : k1 = k
    · simp [updateKB, h, lookupKB]
    · simp [updateKB, h, lookupKB, ih]

theorem lookupKB_updateKB_ne (m : List (ℚ × ℚ)) (k v k0 : ℚ) (h : k ≠ k0) :
    lookupKB (updateKB m k v) k0 = lookupKB m k0 := by
  induction m with
  | nil => simp [updateKB, lookupKB, h]
  | cons p rest ih =>
    obtain ⟨k1, v1⟩ := p
    by_cases h1 : k1 = k
    · subst h1
      simp [updateKB, lookupKB, h]
    · simp [updateKB, h1, lookupKB, ih]

theorem lastMapAfter_cons (m : List (ℚ × ℚ)) (w : SnatchWorkout)
    (l : List SnatchWorkout) :
    lastMapAfter m (w :: l)
      = lastMapAfter (updateKB m w.kettlebell_weight_kg w.total_weight_moved_kg) l :=
  rfl

theorem lastMapAfter_append (m : List (ℚ × ℚ)) (l1 l2 : List SnatchWorkout) :
    lastMapAfter m (l1 ++ l2) = lastMapAfter (lastMapAfter m l1) l2 :=
  List.foldl_append _ _ _ _

theorem lookupKB_lastMapAfter (l : List SnatchWorkout) (m : List (ℚ × ℚ)) (k : ℚ) :
    lookupKB (lastMapAfter m l) k
      = match lastPrevMoved k l with
        | some v => some v
        | none => lookupKB m k := by
  induction l generalizing m with
  | nil => rfl
  | cons w t ih =>
    rw [lastMapAfter_cons, ih]
    cases hl : lastPrevMoved k t with
    | some v => simp [lastPrevMoved, hl]
    | none =>
      by_cases hk : w.kettlebell_weight_kg = k
      · subst hk
        simp [lastPrevMoved, hl, lookupKB_updateKB_self]
      · simp [lastPrevMoved, hl, hk, lookupKB_updateKB_ne _ _ _ _ hk]

theorem processWorkouts_append (l1 l2 : List SnatchWorkout) (m : List (ℚ × ℚ)) :
    processWorkouts m (l1 ++ l2)
      = processWorkouts m l1 ++ processWorkouts (lastMapAfter m l1) l2 := by
  induction l1 generalizing m with
  | nil => rfl
  | cons w t ih => simp [processWorkouts, lastMapAfter_cons, ih]

theorem pctCode_eq_specPercentage (l1 : List SnatchWorkout) (w : SnatchWorkout) :
    pctCode (lastMapAfter [] l1) w = specPercentage l1 w := by
  unfold pctCode specPercentage
  rw [lookupKB_lastMapAfter]
  cases hl : lastPrevMoved w.kettlebell_weight_kg l1 with
  | none => rfl
  | some p =>
    by_cases hp : 0 < p
    · simp [hp, not_le.mpr hp]
    · simp [hp, not_lt.mp hp]

/-- C1: in the ascending pass of the listing route, the percentage field of
each record is exactly what the specification prescribes - null with no
prior record at the same weight, null when the previous moved-weight is not
positive, otherwise round(((m - p) / p) * 100, 2) with p the previous
moved-weight at that weight - and after the record is processed the weight
map holds its moved-weight, whether or not a percentage was produced. -/
theorem analytics_pass_matches_claim (l1 l2 : List SnatchWorkout)
    (w : SnatchWorkout) :
    processWorkouts [] (l1 ++ w :: l2)
      = processWorkouts [] l1
        ++ ({ w.to_dict with
                percentage_change_from_previous_same_weight := specPercentage l1 w }
            :: processWorkouts
                (updateKB (lastMapAfter [] l1) w.kettlebell_weight_kg
                  w.total_weight_moved_kg) l2)
    ∧ lookupKB (lastMapAfter [] (l1 ++ [w])) w.kettlebell_weight_kg
        = some w.total_weight_moved_kg := by
  constructor
  · rw [processWorkouts_append]
    simp only [processWorkouts]
    rw [pctCode_eq_specPercentage]
  · rw [lastMapAfter_append]
    exact lookupKB_updateKB_self _ _ _

/-! ### Stability of the descending re-sort (C2) -/

theorem filter_orderedInsert_ne (d : Nat) (a : WorkoutDict)
    (l : List WorkoutDict) (ha : a.workout_date ≠ d) :
    (List.orderedInsert dateDesc a l).filter
        (fun x => decide (x.workout_date = d))
      = l.filter (fun x => decide (x.workout_date = d)) := by
  induction l with
  | nil => simp [List.orderedInsert, ha]
  | cons b t ih =>
    by_cases h : dateDesc a b
    · simp [List.orderedInsert, h, ha]
    · simp only [List.orderedInsert, if_neg h, List.filter_cons]
      rw [ih]

theorem filter_orderedInsert_eq (d : Nat) (a : WorkoutDict)
    (l : List WorkoutDict) (ha : a.workout_date = d) :
    (List.orderedInsert dateDesc a l).filter
        (fun x => decide (x.workout_date = d))
      = a :: l.filter (fun x => decide (x.workout_date = d)) := by
  induction l with
  | nil => simp [List.orderedInsert, ha]
  | cons b t ih =>
    by_cases h : dateDesc a b
    · simp [List.orderedInsert, h, ha]
    · have hbd : b.workout_date ≠ d := by
        intro hbd
        exact h (by rw [dateDesc, hbd, ← ha])
      simp only [List.orderedInsert, if_neg h, List.filter_cons, hbd,
        decide_eq_true_eq, if_false]
      simp [ih, hbd]

theorem filter_descSortDicts (d : Nat) (l : List WorkoutDict) :
    (descSortDicts l).filter (fun x => decide (x.workout_date = d))
      = l.filter (fun x => decide (x.workout_date = d)) := by
  induction l with
  | nil => rfl
  | cons b t ih =>
    have hstep : descSortDicts (b :: t)
        = List.orderedInsert dateDesc b (descSortDicts t) := rfl
    by_cases h : b.workout_date = d
    · rw [hstep, filter_orderedInsert_eq d b _ h, ih]
      simp [h]
    · rw [hstep, filter_orderedInsert_ne d b _ h, ih]
      simp [h]

/-- C2 (amended): the listing computes the percentages in the ascending
pass and only then re-sorts; the re-sort is a permutation (so every
computed percentage value survives unchanged), the result is ordered by
date descending, and the sort is stable - records sharing a date keep the
ascending-pass relative order (they are NOT reversed; Python list.sort with
reverse=True keeps equal keys in original order). -/
theorem listing_descending_stable (store : List SnatchWorkout) :
    get_all_snatch_workouts store
      = .workoutList (descSortDicts (processWorkouts [] (ascQuery store)))
    ∧ (descSortDicts (processWorkouts [] (ascQuery store))).Perm
        (processWorkouts [] (ascQuery store))
    ∧ List.Sorted dateDesc (descSortDicts (processWorkouts [] (ascQuery store)))
    ∧ ∀ d, (descSortDicts (processWorkouts [] (ascQuery store))).filter
          (fun x => decide (x.workout_date = d))
        = (processWorkouts [] (ascQuery store)).filter
          (fun x => decide (x.workout_date = d)) :=
  ⟨rfl, List.perm_insertionSort dateDesc _, List.sorted_insertionSort dateDesc _,
    fun d => filter_descSortDicts d _⟩

/-- C2 counterexample: two stored records share one date; the claim says
tied records appear in the reverse of their ascending-pass order, but the
listing keeps them in the ascending-pass order. -/
theorem listing_tie_order_not_reversed :
    (descSortDicts (processWorkouts [] (ascQuery [w16a, w16b]))).map
        (fun x => x.id) = [some 1, some 2]
    ∧ (processWorkouts [] (ascQuery [w16a, w16b])).map (fun x => x.id)
        = [some 1, some 2]
    ∧ w16a.workout_date = w16b.workout_date
    ∧ ([some 1, some 2] : List (Option Nat)) ≠ List.reverse [some 1, some 2] := by
  refine ⟨?_, ?_, rfl, by decide⟩ <;> rfl

/-! ### The derived-field invariant (C3) -/

theorem add_store_unchanged (ws : List SnatchWorkout)
    (d : Option WorkoutPostBody) : (add_snatch_workout ws d).2 = ws := by
  rcases d with _ | b
  · rfl
  rcases b with ⟨ods, odur, okb, osn, orpi⟩
  rcases ods with _ | ds <;> rcases odur with _ | dur <;>
    rcases okb with _ | kb <;> rcases osn with _ | sn <;> try rfl
  cases h : strptime_Ymd ds with
  | none => simp [add_snatch_workout, tryAddBody, h]
  | some dt => simp [add_snatch_workout, tryAddBody, h, SnatchWorkout.callCtor]

theorem run_workouts_unchanged (s : AppState) (reqs : List Request) :
    (run s reqs).workouts = s.workouts := by
  induction reqs generalizing s with
  | nil => rfl
  | cons r t ih =>
    have hr : run s (r :: t) = run (step s r) t := rfl
    rw [hr, ih]
    cases r with
    | addWorkout b => simp [step, add_store_unchanged]
    | listWorkouts => rfl
    | register b => rfl
    | login b now => rfl

/-- C3: total_weight_moved is computed once, at construction, as
kettlebell_weight * total_snatches of the constructor inputs; no request
ever mutates a stored workout row (the workout table itself never changes),
so every stored row that came from the constructor satisfies the product
invariant forever. -/
theorem total_weight_invariant (s0 : AppState) (reqs : List Request)
    (h0 : ∀ w ∈ s0.workouts, w.fromCtor) :
    (∀ r dt dur kb sn,
        (SnatchWorkout.init r dt dur kb sn).total_weight_moved_kg
          = (SnatchWorkout.init r dt dur kb sn).kettlebell_weight_kg
            * ((SnatchWorkout.init r dt dur kb sn).total_snatches : ℚ))
    ∧ (run s0 reqs).workouts = s0.workouts
    ∧ ∀ w ∈ (run s0 reqs).workouts,
        w.total_weight_moved_kg
          = w.kettlebell_weight_kg * (w.total_snatches : ℚ) := by
  refine ⟨fun r dt dur kb sn => rfl, run_workouts_unchanged s0 reqs, ?_⟩
  intro w hw
  rw [run_workouts_unchanged] at hw
  obtain ⟨r, dt, dur, kb, sn, i, u, rfl⟩ := h0 w hw
  rfl

/-- Witness for C3: a store holding one constructor-built row, run through
a listing request. -/
theorem total_weight_invariant_witness :
    (∀ w ∈ (AppState.mk [] [SnatchWorkout.init 10 20240101 30 16 20]).workouts,
        w.fromCtor)
    ∧ ∀ w ∈ (run (AppState.mk [] [SnatchWorkout.init 10 20240101 30 16 20])
          [Request.listWorkouts]).workouts,
        w.total_weight_moved_kg
          = w.kettlebell_weight_kg * (w.total_snatches : ℚ) := by
  have h0 : ∀ w ∈ (AppState.mk [] [SnatchWorkout.init 10 20240101 30 16 20]).workouts,
      w.fromCtor := by
    intro w hw
    simp only [List.mem_singleton] at hw
    subst hw
    exact ⟨10, 20240101, 30, 16, 20, none, none, rfl⟩
  exact ⟨h0, (total_weight_invariant _ [Request.listWorkouts] h0).2.2⟩

/-! ### The broken creation handler (C4, C5) -/

theorem add_valid_fields_500 (ws : List SnatchWorkout) (b : WorkoutPostBody)
    (ds : String) (dt : Nat) (dur : Int) (kb : ℚ) (sn : Int)
    (h1 : b.workout_date_str = some ds) (h2 : b.duration_minutes = some dur)
    (h3 : b.kettlebell_weight_kg = some kb) (h4 : b.total_snatches = some sn)
    (h5 : strptime_Ymd ds = some dt) :
    add_snatch_workout ws (some b)
      = (.err 500 ("An unexpected error occurred"), ws) := by
  rcases b with ⟨ods, odur, okb, osn, orpi⟩
  dsimp only at h1 h2 h3 h4
  subst h1 h2 h3 h4
  simp [add_snatch_workout, tryAddBody, h5, SnatchWorkout.callCtor]

/-- C4: a creation request carrying all four checked fields and a parseable
date reaches the SnatchWorkout call, which the handler makes without the
required reps_per_interval argument; the TypeError falls to the generic
handler, the response is 500, no 201 result is possible, and the store is
unchanged. -/
theorem add_workout_missing_ctor_arg (ws : List SnatchWorkout)
    (b : WorkoutPostBody) (ds : String) (dt : Nat) (dur : Int) (kb : ℚ)
    (sn : Int)
    (h1 : b.workout_date_str = some ds) (h2 : b.duration_minutes = some dur)
    (h3 : b.kettlebell_weight_kg = some kb) (h4 : b.total_snatches = some sn)
    (h5 : strptime_Ymd ds = some dt) :
    add_snatch_workout ws (some b)
        = (.err 500 ("An unexpected error occurred"), ws)
    ∧ (add_snatch_workout ws (some b)).1.status = 500
    ∧ ∀ d0 : WorkoutDict,
        (add_snatch_workout ws (some b)).1 ≠ .workoutCreated d0 := by
  have h := add_valid_fields_500 ws b ds dt dur kb sn h1 h2 h3 h4 h5
  refine ⟨h, ?_, ?_⟩
  · rw [h]
    rfl
  · intro d0 hc
    rw [h] at hc
    exact ApiResponse.noConfusion hc

/-- Witness for C4: a concrete well-formed creation request. -/
theorem add_workout_missing_ctor_arg_witness :
    goodBody.workout_date_str = some ("2024-01-01")
    ∧ strptime_Ymd ("2024-01-01") = some 20240101
    ∧ add_snatch_workout [] (some goodBody)
        = (.err 500 ("An unexpected error occurred"), []) :=
  ⟨rfl, by decide,
    (add_workout_missing_ctor_arg [] goodBody ("2024-01-01") 20240101 30 16
      100 rfl rfl rfl rfl (by decide)).1⟩

/-- C5 counterexample: a creation request with a negative duration (and a
parseable date) is not rejected with any 4xx validation failure; the
handler answers 500. -/
theorem nonpositive_not_validation_rejected :
    negDurationBody.duration_minutes = some (-5)
    ∧ (-5 : Int) ≤ 0
    ∧ (add_snatch_workout [] (some negDurationBody)).1
        = .err 500 ("An unexpected error occurred")
    ∧ (add_snatch_workout [] (some negDurationBody)).1.status = 500
    ∧ ¬ (add_snatch_workout [] (some negDurationBody)).1.status < 500 := by
  have h := add_valid_fields_500 [] negDurationBody ("2024-01-01") 20240101
    (-5) 16 100 rfl rfl rfl rfl (by decide)
  refine ⟨rfl, by decide, ?_, ?_, ?_⟩
  · rw [h]
  · rw [h]
    rfl
  · rw [h]
    decide

/-- C5 (amended): with the four checked fields present, an unparseable date
string is rejected with the 400 validation response; the numeric fields are
never checked for positivity - a request with a parseable date fails with
500 at the constructor call whatever its numbers are - and in either case
the store is unchanged, so no record is ever persisted. -/
theorem add_workout_validation_amended (ws : List SnatchWorkout)
    (b : WorkoutPostBody) (ds : String) (dur : Int) (kb : ℚ) (sn : Int)
    (h1 : b.workout_date_str = some ds) (h2 : b.duration_minutes = some dur)
    (h3 : b.kettlebell_weight_kg = some kb) (h4 : b.total_snatches = some sn) :
    (strptime_Ymd ds = none →
      add_snatch_workout ws (some b) = (.err 400 ("Invalid data format"), ws))
    ∧ ∀ dt, strptime_Ymd ds = some dt →
      add_snatch_workout ws (some b)
        = (.err 500 ("An unexpected error occurred"), ws) := by
  constructor
  · intro h5
    rcases b with ⟨ods, odur, okb, osn, orpi⟩
    dsimp only at h1 h2 h3 h4
    subst h1 h2 h3 h4
    simp [add_snatch_workout, tryAddBody, h5]
  · intro dt h5
    exact add_valid_fields_500 ws b ds dt dur kb sn h1 h2 h3 h4 h5

/-- Witness for C5 (amended): one request with a thirteenth-month date, one
with a valid date. -/
theorem add_workout_validation_amended_witness :
    add_snatch_workout [] (some badDateBody)
        = (.err 400 ("Invalid data format"), [])
    ∧ add_snatch_workout [] (some goodBody)
        = (.err 500 ("An unexpected error occurred"), []) :=
  ⟨(add_workout_validation_amended [] badDateBody ("2024-13-01") 30 16 100
      rfl rfl rfl rfl).1 (by decide),
    (add_workout_validation_amended [] goodBody ("2024-01-01") 30 16 100
      rfl rfl rfl rfl).2 20240101 (by decide)⟩

/-! ### Registration conflicts (C6) -/

/-- C6: a registration request whose fields pass the missing-field guard
and whose username or email is already taken is answered 409 and creates
nothing - the user table is unchanged. -/
theorem register_conflict_rejected (users : List User) (b : RegisterBody)
    (un em pw : String)
    (h1 : b.username = some un) (h2 : b.email = some em)
    (h3 : b.password = some pw)
    (hu : un ≠ "") (he : em ≠ "") (hp : pw ≠ "")
    (hconf : (∃ u ∈ users, u.username = un) ∨ (∃ u ∈ users, u.email = em)) :
    (register_user users (some b)).1.status = 409
    ∧ (register_user users (some b)).2 = users := by
  rcases b with ⟨oun, oem, opw⟩
  dsimp only at h1 h2 h3
  subst h1 h2 h3
  have hfalsy : ¬ (un = "" ∨ em = "" ∨ pw = "") := by simp [hu, he, hp]
  by_cases hun : users.any (fun u => decide (u.username = un)) = true
  · constructor <;> simp [register_user, hfalsy, hun, ApiResponse.status]
  · have hem : users.any (fun u => decide (u.email = em)) = true := by
      simp only [List.any_eq_true, decide_eq_true_eq]
      rcases hconf with ⟨u, hmem, hval⟩ | ⟨u, hmem, hval⟩
      · exact absurd (List.any_eq_true.mpr ⟨u, hmem, by simp [hval]⟩) hun
      · exact ⟨u, hmem, hval⟩
    constructor <;>
      simp [register_user, hfalsy, hun, hem, ApiResponse.status]

/-- Witness for C6: registering a second user with an email already
stored. -/
theorem register_conflict_rejected_witness :
    (register_user [aliceUser]
        (some ⟨some ("bob"), some ("alice@example.com"), some ("pw")⟩)).1.status
      = 409
    ∧ (register_user [aliceUser]
        (some ⟨some ("bob"), some ("alice@example.com"), some ("pw")⟩)).2
      = [aliceUser] :=
  register_conflict_rejected [aliceUser] _ ("bob") ("alice@example.com")
    ("pw") rfl rfl rfl (by decide) (by decide) (by decide)
    (Or.inr ⟨aliceUser, List.mem_singleton.mpr rfl, rfl⟩)

/-! ### Token issuance and verification (C7) -/

/-- C7 counterexample: at the exact expiry instant t1 = t0 + TTL the
verifier still accepts the token (the spec expires a token only strictly
after expires_at), whereas the claim demands ExpiredToken at t1 = t0 +
TTL. -/
theorem token_expiry_boundary_cex :
    verifyToken (issueToken 1 0) (0 + JWT_EXPIRATION_DELTA) = .ok 1
    ∧ (0 : Int) + JWT_EXPIRATION_DELTA ≥ 0 + JWT_EXPIRATION_DELTA
    ∧ (Except.ok 1 : Except TokenError Nat) ≠ .error .ExpiredToken := by
  refine ⟨?_, le_refl _, ?_⟩
  · rfl
  · intro hcontra
    exact Except.noConfusion hcontra

/-- C7 (amended): the issued token embeds subject, issued-at and expiry
computed with the one-hour default TTL and is signed with the process-wide
secret; verification at t1 succeeds with the user id whenever t0 <= t1 <=
t0 + TTL, and fails with ExpiredToken whenever t1 > t0 + TTL (strictly
after expiry, not at it). -/
theorem token_roundtrip_amended (uid : Nat) (t0 t1 : Int) :
    issueToken uid t0
        = .signed { exp := t0 + JWT_EXPIRATION_DELTA, iat := t0, sub := uid }
            SECRET_KEY
    ∧ JWT_EXPIRATION_DELTA = 3600
    ∧ (t0 ≤ t1 → t1 ≤ t0 + JWT_EXPIRATION_DELTA →
        verifyToken (issueToken uid t0) t1 = .ok uid)
    ∧ (t0 + JWT_EXPIRATION_DELTA < t1 →
        verifyToken (issueToken uid t0) t1 = .error .ExpiredToken) := by
  refine ⟨rfl, rfl, ?_, ?_⟩
  · intro _ h2
    simp [verifyToken, issueToken, not_lt.mpr h2]
  · intro h
    simp [verifyToken, issueToken, h]

/-- Witness for C7 (amended): a token issued at 100 verifies at 200 and is
expired at 99999. -/
theorem token_roundtrip_amended_witness :
    verifyToken (issueToken 7 100) 200 = .ok 7
    ∧ verifyToken (issueToken 7 100) 99999 = .error .ExpiredToken :=
  ⟨(token_roundtrip_amended 7 100 200).2.2.1 (by decide) (by decide),
    (token_roundtrip_amended 7 100 99999).2.2.2 (by decide)⟩

/-! ### Login failure uniformity (C8) -/

/-- C8: whether the identifier matches no user or the password fails
against the matched user's stored hash, the login route returns the one
identical 401 InvalidCredentials response, and no access token is
issued. -/
theorem login_failure_indistinguishable (users : List User) (idf pw : String)
    (now : Int) (hi : idf ≠ "") (hp : pw ≠ "")
    (hfail : find_user_for_login users idf = none
        ∨ ∃ u, find_user_for_login users idf = some u
            ∧ u.check_password pw = .ok false) :
    login_user users (some { identifier := some idf, password := some pw }) now
        = .err 401 ("Invalid username/email or password")
    ∧ (login_user users
          (some { identifier := some idf, password := some pw }) now).accessToken
        = none := by
  have hfalsy : ¬ (idf = "" ∨ pw = "") := by simp [hi, hp]
  have hmain : login_user users (some ⟨some idf, some pw⟩) now
      = .err 401 ("Invalid username/email or password") := by
    rcases hfail with hnone | ⟨u, hsome, hcp⟩
    · simp [login_user, hfalsy, hnone]
    · simp [login_user, hfalsy, hsome, hcp]
  exact ⟨hmain, by simp [hmain, ApiResponse.accessToken]⟩

/-- Witness for C8: a wrong password for a stored user and an unknown
identifier produce the same response. -/
theorem login_failure_indistinguishable_witness :
    login_user [aliceUser] (some ⟨some ("alice"), some ("wrongpw")⟩) 0
        = .err 401 ("Invalid username/email or password")
    ∧ login_user [aliceUser] (some ⟨some ("nobody"), some ("pw")⟩) 0
        = .err 401 ("Invalid username/email or password") :=
  ⟨(login_failure_indistinguishable [aliceUser] ("alice") ("wrongpw") 0
      (by decide) (by decide) (Or.inr ⟨aliceUser, rfl, rfl⟩)).1,
    (login_failure_indistinguishable [aliceUser] ("nobody") ("pw") 0
      (by decide) (by decide) (Or.inl rfl)).1⟩

/-! ### Credential verification totality (C9) -/

/-- C9: the credential check returns a boolean for every password and every
stored value and never raises; a malformed stored hash is a non-match;
User.check_password is exactly this routine applied to the stored hash. -/
theorem check_password_never_raises :
    (∀ h pw, ∃ b : Bool, check_password_hash h pw = .ok b)
    ∧ (∀ raw pw, check_password_hash (.malformed raw) pw = .ok false)
    ∧ (∀ u pw, User.check_password u pw
        = check_password_hash u.password_hash pw) := by
  refine ⟨fun h pw => ?_, fun raw pw => rfl, fun u pw => rfl⟩
  cases h with
  | bcrypt p => exact ⟨p == pw, rfl⟩
  | malformed r => exact ⟨false, rfl⟩

/-! ### Listing is global (C10) -/

theorem processWorkouts_ids (m : List (ℚ × ℚ)) (l : List SnatchWorkout) :
    (processWorkouts m l).map (fun x => (x.id, x.user_id))
      = l.map (fun w => (w.id, w.user_id)) := by
  induction l generalizing m with
  | nil => rfl
  | cons w t ih => simp [processWorkouts, SnatchWorkout.to_dict, ih]

/-- C10: the listing route takes no caller and applies no user filter: for
every stored history its output rows are, up to the cosmetic reordering,
exactly the rows of the whole workout table - every user's records,
identified by (id, user_id), appear. -/
theorem listing_unfiltered_global (store : List SnatchWorkout) :
    get_all_snatch_workouts store
      = .workoutList (descSortDicts (processWorkouts [] (ascQuery store)))
    ∧ ((descSortDicts (processWorkouts [] (ascQuery store))).map
          (fun x => (x.id, x.user_id))).Perm
        (store.map (fun w => (w.id, w.user_id))) := by
  refine ⟨rfl, ?_⟩
  have p1 : (descSortDicts (processWorkouts [] (ascQuery store))).Perm
      (processWorkouts [] (ascQuery store)) :=
    List.perm_insertionSort dateDesc _
  have p2 := p1.map (fun x => (x.id, x.user_id))
  rw [processWorkouts_ids] at p2
  have p3 : (ascQuery store).Perm store :=
    List.perm_insertionSort dateAsc store
  exact p2.trans (p3.map _)
